import Mathlib

/-!
Verification development for the MoviePilot subscription plugin
(`api.py`: authenticated REST client with token cache and retry loop;
`main.py`: per-user selection dialogue).  The Python code is shallowly
embedded: pure fragments become Lean functions, the mutable token cache and
session registry become explicit state passing, and network I/O is
abstracted by outcome functions (one outcome per attempt) or transport
oracles supplied as arguments.
-/

/-! ### Python-semantics helpers -/

/-- Truthiness of a `str | None` value: `None` and `""` are falsy. -/
def pyTruthyOptStr : Option String → Bool
  | none => false
  | some s => s != ""

/-- ASCII whitespace recognised by Python's `str.strip()` / `int()`
(space, tab, newline, carriage return, vertical tab, form feed). -/
def isPySpace (c : Char) : Bool :=
  c == ' ' || c == '\t' || c == '\n' || c == '\r' ||
    c == Char.ofNat 11 || c == Char.ofNat 12

/-- Strip leading and trailing whitespace from a character list. -/
def pyStripList (cs : List Char) : List Char :=
  ((cs.dropWhile isPySpace).reverse.dropWhile isPySpace).reverse

/-- Python `str.strip()` (ASCII-whitespace fragment). -/
def pyStrip (s : String) : String :=
  String.mk (pyStripList s.toList)

/-- Numeric value of a decimal digit character. -/
def pyDigitVal (c : Char) : Nat := c.toNat - '0'.toNat

/-- Value of a list of decimal digit characters, most significant first. -/
def pyDigitsToNat (cs : List Char) : Nat :=
  cs.foldl (fun a c => 10 * a + pyDigitVal c) 0

/-- Tail of a Python integer literal after its first digit: digits with
single underscores allowed only between digits.  Returns the digits with
underscores removed, or `none` for a malformed tail. -/
def pyDigitTail : List Char → Option (List Char)
  | [] => some []
  | '_' :: [] => none
  | '_' :: c :: rest =>
    if c.isDigit then (pyDigitTail rest).map (c :: ·) else none
  | c :: rest =>
    if c.isDigit then (pyDigitTail rest).map (c :: ·) else none

/-- Parse an unsigned run of digits (with Python underscore grouping);
`none` when empty or malformed. -/
def pyParseDigits : List Char → Option Nat
  | [] => none
  | c :: rest =>
    if c.isDigit then (pyDigitTail rest).map (fun ds => pyDigitsToNat (c :: ds))
    else none

/-- Python `int(s)` on a string: strip whitespace, optional sign, decimal
digits with underscore grouping; `none` models `ValueError`. -/
def pyIntOfString (s : String) : Option Int :=
  match pyStripList s.toList with
  | '+' :: rest => (pyParseDigits rest).map fun n => (n : Int)
  | '-' :: rest => (pyParseDigits rest).map fun n => -(n : Int)
  | cs => (pyParseDigits cs).map fun n => (n : Int)

/-! ### Token cache state (`MoviepilotApi.__init__`, `api.py` lines 36-39) -/

/-- The two cached-credential fields `_cached_token` and `_token_expires_at`.
Timestamps are modelled as integers (seconds). -/
structure TokenState where
  cached_token : Option String
  token_expires_at : Int
deriving DecidableEq

/-- The `_token_buffer` constant: refresh 300 s before expiry. -/
def token_buffer : Int := 300

/-- Configuration fields of `MoviepilotApi` used by the modelled methods. -/
structure ApiConfig where
  mp_username : String
  mp_password : String
  max_retries : Nat
  retry_delay : Int
deriving DecidableEq

/-! ### The retry loop of `_request` (`api.py` lines 155-197) -/

/-- Outcome of one HTTP attempt inside the retry loop, as the Python code
distinguishes them: `ok` is status 200 with parsed body `b`; `unauthorized`
is status 401; `httpError c` is any other status `c`; `timeout`,
`connError` and `exc` are the three `except` arms. -/
inductive AttemptOutcome (α : Type) where
  | ok (b : α)
  | unauthorized
  | httpError (code : Nat)
  | timeout
  | connError
  | exc
deriving DecidableEq

/-- Classification of an attempt outcome: success, fatal auth rejection, or
retryable transient failure. -/
inductive AttemptClass (α : Type) where
  | success (b : α)
  | authReject
  | transient
deriving DecidableEq

/-- Classify one attempt outcome the way the `if`/`elif`/`else` and
`except` arms of `_request` do. -/
def classify : AttemptOutcome α → AttemptClass α
  | .ok b => .success b
  | .unauthorized => .authReject
  | _ => .transient

/-- An outcome the loop treats as retryable (non-2xx non-401 status,
timeout, connection error, or other exception). -/
def isRetryable (o : AttemptOutcome α) : Bool :=
  match classify o with
  | .transient => true
  | _ => false

/-- Methods accepted by the dispatch in `_request`. -/
def methodSupported (method : String) : Bool :=
  method == "GET" || method == "POST_JSON" || method == "POST_FORM"

/-- Result of one `_request` call: the returned value (`none` is Python
`None`), the token-cache state after the call, the number of HTTP attempts
issued, and the list of sleeps performed between attempts. -/
structure ReqResult (α : Type) where
  result : Option α
  state : TokenState
  attempts : Nat
  delays : List Int
deriving DecidableEq

/-- The `for attempt in range(self.max_retries)` loop of `_request`.
`attempt` is the current 0-based attempt index and the final argument is
the number of loop iterations remaining (`max_retries - attempt`).
Status 200 returns the body; status 401 clears the cached token and
returns `None`; retryable outcomes sleep `retry_delay * (attempt + 1)`
when iterations remain and otherwise fall out of the loop, which returns
`None`.  An unsupported method returns `None` from inside the loop before
any HTTP attempt. -/
def requestGo (method : String) (retry_delay : Int)
    (outcomes : Nat → AttemptOutcome α) (st : TokenState) (attempt : Nat) :
    Nat → ReqResult α
  | 0 => ⟨none, st, 0, []⟩
  | remaining + 1 =>
    if methodSupported method then
      match classify (outcomes attempt) with
      | .success b => ⟨some b, st, 1, []⟩
      | .authReject => ⟨none, ⟨none, 0⟩, 1, []⟩
      | .transient =>
        match remaining with
        | 0 => ⟨none, st, 1, []⟩
        | r + 1 =>
          let rr := requestGo method retry_delay outcomes st (attempt + 1) (r + 1)
          ⟨rr.result, rr.state, rr.attempts + 1,
            retry_delay * ((attempt : Int) + 1) :: rr.delays⟩
    else ⟨none, st, 0, []⟩

/-- A whole `_request` retry loop starting at attempt 0 with
`max_retries` iterations. -/
def requestAttempts (method : String) (max_retries : Nat) (retry_delay : Int)
    (outcomes : Nat → AttemptOutcome α) (st : TokenState) : ReqResult α :=
  requestGo method retry_delay outcomes st 0 max_retries

/-! ### `_get_mp_token` (`api.py` lines 56-102) -/

/-- Shape of the login response body: the `access_token` and `expires_in`
keys, each possibly absent. -/
structure LoginResp where
  access_token : Option String
  expires_in : Option Int
deriving DecidableEq

/-- Result of one `_get_mp_token` call: the returned token, the cache
state after the call, whether the login `_request` was performed, and how
many HTTP attempts that login issued (0 when no login was performed). -/
structure TokenCallResult where
  token : Option String
  state : TokenState
  loginCalled : Bool
  loginAttempts : Nat
deriving DecidableEq

/-- One call of `_get_mp_token`: return the cached token when it is truthy
and `current_time` is still more than `token_buffer` before expiry;
otherwise fail fast on an empty password, or POST the login form through
`_request` and, when the body carries an `access_token`, store it with
expiry `current_time + expires_in` (default 3600). -/
def get_mp_token (cfg : ApiConfig) (st : TokenState) (current_time : Int)
    (loginOutcomes : Nat → AttemptOutcome LoginResp) : TokenCallResult :=
  if pyTruthyOptStr st.cached_token &&
      decide (current_time < st.token_expires_at - token_buffer) then
    ⟨st.cached_token, st, false, 0⟩
  else if cfg.mp_password == "" then
    ⟨none, st, false, 0⟩
  else
    let r := requestAttempts "POST_FORM" cfg.max_retries cfg.retry_delay
      loginOutcomes st
    match r.result with
    | some d =>
      match d.access_token with
      | some tok =>
        ⟨some tok, ⟨some tok, current_time + d.expires_in.getD 3600⟩,
          true, r.attempts⟩
      | none => ⟨none, r.state, true, r.attempts⟩
    | none => ⟨none, r.state, true, r.attempts⟩

/-- A sequence of `_get_mp_token` calls, each given by its `time.time()`
value and the login-attempt outcomes it would see; returns the final cache
state, the total number of login HTTP attempts, and the tokens returned. -/
def getTokenSeq (cfg : ApiConfig) :
    TokenState → List (Int × (Nat → AttemptOutcome LoginResp)) →
      TokenState × Nat × List (Option String)
  | st, [] => (st, 0, [])
  | st, (t, louts) :: rest =>
    let r := get_mp_token cfg st t louts
    let (st', k, toks) := getTokenSeq cfg r.state rest
    (st', r.loginAttempts + k, r.token :: toks)

/-! ### Catalog operations (`api.py` lines 219-329) -/

/-- A `tmdb_id` value as the code may receive it: `None`, a string, or an
integer (`movie.get("tmdb_id")` yields `absent` when the key is missing). -/
inductive TmdbId where
  | absent
  | ofStr (s : String)
  | ofInt (n : Int)
deriving DecidableEq

/-- Python truthiness of a `str | int | None` identifier. -/
def pyTruthyTmdb : TmdbId → Bool
  | .absent => false
  | .ofStr s => s != ""
  | .ofInt n => n != 0

/-- Python `str()` of the identifier. -/
def pyStrOfTmdb : TmdbId → String
  | .absent => "None"
  | .ofStr s => s
  | .ofInt n => toString n

/-- Python `int()` of the identifier: `TypeError` on `None`, string
parsing on `str`, identity on `int`; `none` models the raised error. -/
def pyIntOfTmdb : TmdbId → Option Int
  | .absent => none
  | .ofStr s => pyIntOfString s
  | .ofInt n => some n

/-- One entry of a season list: the `season_number` and `name` keys. -/
structure SeasonInfo where
  season_number : Option Int
  name : Option String
deriving DecidableEq

/-- The `list_all_seasons` method.  `transport` abstracts the GET through
`_request` on the validated integer id (`none` covers both a `None` result
and a raised exception, which the method catches).  The boolean records
whether any network call was attempted. -/
def list_all_seasons (transport : Int → Option (List SeasonInfo))
    (tmdbid : TmdbId) : Option (List SeasonInfo) × Bool :=
  if !pyTruthyTmdb tmdbid || pyStrOfTmdb tmdbid == "tv" ||
      pyStrOfTmdb tmdbid == "movie" then
    (none, false)
  else
    match pyIntOfTmdb tmdbid with
    | none => (none, false)
    | some n => (transport n, true)

/-- A search-result entry as `main.py` reads it: the `title`, `year`,
`type` and `tmdb_id` keys of one movie dict. -/
structure MovieInfo where
  title : Option String
  year : Option String
  mtype : Option String
  tmdb_id : TmdbId
deriving DecidableEq

/-- The JSON body POSTed to `/api/v1/subscribe/` (`type` key for movies,
`season` key for series). -/
structure SubReqBody where
  name : Option String
  tmdbid : TmdbId
  mtype : Option String
  season : Option Int
deriving DecidableEq

/-- Body of a subscribe response: a JSON object whose `success` key may be
absent, or a non-object body (on which `.get` raises, caught by the
`except` arm). -/
inductive SubBody where
  | dict (success : Option Bool)
  | nonDict
deriving DecidableEq

/-- The request body built by `subscribe_movie`. -/
def movieSubBody (movie : MovieInfo) : SubReqBody :=
  ⟨movie.title, movie.tmdb_id, some "电影", none⟩

/-- The request body built by `subscribe_series`. -/
def seriesSubBody (movie : MovieInfo) (season : Int) : SubReqBody :=
  ⟨movie.title, movie.tmdb_id, none, some season⟩

/-- The `subscribe_movie` method: POST the body, then
`response.get("success", False) if response else False`, with any raised
error caught and turned into `False`. -/
def subscribe_movie (transport : SubReqBody → Option SubBody)
    (movie : MovieInfo) : Bool :=
  match transport (movieSubBody movie) with
  | none => false
  | some (.dict s) => s.getD false
  | some .nonDict => false

/-- The `subscribe_series` method: same success-flag contract with a
`season` field in the body. -/
def subscribe_series (transport : SubReqBody → Option SubBody)
    (movie : MovieInfo) (season : Int) : Bool :=
  match transport (seriesSubBody movie season) with
  | none => false
  | some (.dict s) => s.getD false
  | some .nonDict => false

/-- One download task entry (opaque for the properties proved here). -/
structure DownloadTask where
  payload : List (String × String)
deriving DecidableEq

/-- The `get_download_progress` method: `None` when `_request` returned
`None` (or raised); otherwise `data if data else []`, so a falsy (empty)
list becomes `[]`. -/
def get_download_progress (transport : Option (List DownloadTask)) :
    Option (List DownloadTask) :=
  match transport with
  | none => none
  | some l => if l.isEmpty then some [] else some l

/-! ### Dialogue step (`main.py` lines 148-337) -/

/-- A call into `SessionController`: `keep timeout reset_timeout`
(refresh the wait) or `stop` (terminate the session). -/
inductive CtrlAction where
  | keep (timeout : Nat) (reset_timeout : Bool)
  | stop
deriving DecidableEq

/-- A subscribe call issued to the API during one turn. -/
inductive SubCall where
  | movie (m : MovieInfo)
  | series (m : MovieInfo) (season : Int)
deriving DecidableEq

/-- The per-user state dict stored by `_set_user_state`: keys
`selected_movie`, `seasons`, `waiting_for`. -/
structure StoredState where
  selected_movie : Option MovieInfo
  seasons : List SeasonInfo
  waiting_for : Option String
deriving DecidableEq

/-- The value `_get_user_state` yields for an absent user: a copy of `{}`. -/
def emptyStored : StoredState := ⟨none, [], none⟩

/-- Observable effect of one dialogue turn: the controller action taken,
the subscribe calls issued, and the state written by `_set_user_state`
(`none` when no write happened). -/
structure StepResult where
  ctrl : CtrlAction
  subCalls : List SubCall
  setState : Option StoredState
deriving DecidableEq

/-- Results the API returns to the dialogue layer during one turn
(`list_all_seasons` result and subscribe outcomes); `none` covers both a
`None` return and a raised exception, which the callers catch. -/
structure ApiOracle where
  listSeasonsR : TmdbId → Option (List SeasonInfo)
  subscribeMovieR : MovieInfo → Bool
  subscribeSeriesR : MovieInfo → Int → Bool

/-- The `_handle_tv_series_selection` method: reject a falsy or sentinel
`tmdb_id` (stop), fetch seasons (stop on failure or an empty list), else
show the list, store `{selected_movie, seasons, waiting_for: "season"}`
and keep the session alive for 60 more seconds. -/
def handle_tv_series_selection (oracle : ApiOracle) (movie : MovieInfo) :
    StepResult :=
  if !pyTruthyTmdb movie.tmdb_id || pyStrOfTmdb movie.tmdb_id == "tv" ||
      pyStrOfTmdb movie.tmdb_id == "movie" then
    ⟨.stop, [], none⟩
  else
    match oracle.listSeasonsR movie.tmdb_id with
    | none => ⟨.stop, [], none⟩
    | some [] => ⟨.stop, [], none⟩
    | some seasons =>
      ⟨.keep 60 true, [], some ⟨some movie, seasons, some "season"⟩⟩

/-- The `_process_movie_index_selection` method: parse the reply as an
integer (invalid → keep), `0` cancels (stop), an out-of-range index keeps
the session, a TV pick goes to season handling, and any other pick issues
one `subscribe_movie` call and stops. -/
def process_movie_index_selection (oracle : ApiOracle) (user_input : String)
    (movies : List MovieInfo) : StepResult :=
  match pyIntOfString user_input with
  | none => ⟨.keep 60 true, [], none⟩
  | some n =>
    let index := n - 1
    if index = -1 then ⟨.stop, [], none⟩
    else if 0 ≤ index ∧ index < (movies.length : Int) then
      let m := movies.getD index.toNat ⟨none, none, none, .absent⟩
      if m.mtype = some "电视剧" then handle_tv_series_selection oracle m
      else
        let _success := oracle.subscribeMovieR m
        ⟨.stop, [.movie m], none⟩
    else ⟨.keep 60 true, [], none⟩

/-- The `_process_season_selection` method: parse the reply (invalid →
keep), `0` cancels (stop), an expired stored state stops, a season number
absent from the stored list keeps the session, and a listed season issues
one `subscribe_series` call and stops. -/
def process_season_selection (oracle : ApiOracle) (user_input : String)
    (stored : StoredState) : StepResult :=
  match pyIntOfString user_input with
  | none => ⟨.keep 60 true, [], none⟩
  | some n =>
    if n = 0 then ⟨.stop, [], none⟩
    else
      match stored.selected_movie with
      | none => ⟨.stop, [], none⟩
      | some m =>
        if stored.seasons.isEmpty then ⟨.stop, [], none⟩
        else if stored.seasons.any (fun s => s.season_number == some n) then
          let _success := oracle.subscribeSeriesR m n
          ⟨.stop, [.series m n], none⟩
        else ⟨.keep 60 true, [], none⟩

/-- The body of `selection_waiter`: strip the message, read the stored
state, and dispatch on whether `waiting_for` equals `"season"`. -/
def selection_waiter_step (oracle : ApiOracle) (movies : List MovieInfo)
    (stored : StoredState) (message : String) : StepResult :=
  let user_input := pyStrip message
  if stored.waiting_for = some "season" then
    process_season_selection oracle user_input stored
  else
    process_movie_index_selection oracle user_input movies

/-! ### Session registry with explicit heap (`main.py` lines 406-419)

Python dicts are mutable heap objects; to make the `.copy()` in
`_get_user_state` observable, state dicts live in an explicit heap of
cells addressed by allocation order, and the registry maps a user id to
the address of its current state dict. -/

/-- The heap of state dicts plus the `self.state` registry. -/
structure Mem where
  heap : Nat → StoredState
  hsize : Nat
  reg : List (String × Nat)

/-- Addresses held by the registry point at allocated cells. -/
def Mem.wf (m : Mem) : Prop :=
  ∀ p ∈ m.reg, p.2 < m.hsize

/-- The state dict the registry currently associates with a user
(`none` when the user has no session). -/
def storedOf (m : Mem) (uid : String) : Option StoredState :=
  (m.reg.lookup uid).map m.heap

/-- The `_get_user_state` method: `self.state.get(user_id, {}).copy()` —
read the user's dict (or `{}`), allocate a fresh cell holding a copy of
it, and hand the caller the fresh address. -/
def get_user_state (m : Mem) (uid : String) : Mem × Nat :=
  let v :=
    match m.reg.lookup uid with
    | some a => m.heap a
    | none => emptyStored
  (⟨fun x => if x = m.hsize then v else m.heap x, m.hsize + 1, m.reg⟩,
    m.hsize)

/-- The `_set_user_state` method: `self.state[user_id] = state` — allocate
a cell for the given dict value and point the registry at it. -/
def set_user_state (m : Mem) (uid : String) (v : StoredState) : Mem :=
  ⟨fun x => if x = m.hsize then v else m.heap x, m.hsize + 1,
    (uid, m.hsize) :: m.reg.filter (fun p => p.1 ≠ uid)⟩

/-- The `_clear_user_state` method: `self.state.pop(user_id, None)`. -/
def clear_user_state (m : Mem) (uid : String) : Mem :=
  ⟨m.heap, m.hsize, m.reg.filter (fun p => p.1 ≠ uid)⟩

/-- In-place mutation of the dict at address `a` by a caller. -/
def mutateCell (m : Mem) (a : Nat) (f : StoredState → StoredState) : Mem :=
  ⟨fun x => if x = a then f (m.heap x) else m.heap x, m.hsize, m.reg⟩

/-! ### Lemmas about the retry loop -/

theorem classify_eq_transient_of_retryable {o : AttemptOutcome α}
    (h : isRetryable o = true) : classify o = AttemptClass.transient := by
  cases o <;> simp_all [isRetryable, classify]

theorem eq_unauthorized_of_classify {o : AttemptOutcome α}
    (h : classify o = AttemptClass.authReject) :
    o = AttemptOutcome.unauthorized := by
  cases o <;> simp_all [classify]

/-- When every attempt fails with a retryable outcome, the loop runs all
its remaining iterations, leaves the token cache alone, returns `None`,
and sleeps `retry_delay * (attempt + 1)` after every attempt but the
last. -/
theorem requestGo_all_retryable (method : String) (d : Int)
    (outcomes : Nat → AttemptOutcome α) (st : TokenState)
    (hm : methodSupported method = true)
    (hall : ∀ i, isRetryable (outcomes i) = true) :
    ∀ remaining attempt,
      requestGo method d outcomes st attempt remaining =
        ⟨none, st, remaining,
          (List.range (remaining - 1)).map
            fun i => d * (((attempt + i : Nat) : Int) + 1)⟩ := by
  intro remaining
  induction remaining with
  | zero => intro attempt; simp [requestGo]
  | succ r ih =>
    intro attempt
    have hc := classify_eq_transient_of_retryable (hall attempt)
    cases r with
    | zero => simp [requestGo, hm, hc]
    | succ r' =>
      have hstep : requestGo method d outcomes st attempt (r' + 1 + 1) =
          (let rr := requestGo method d outcomes st (attempt + 1) (r' + 1)
           ⟨rr.result, rr.state, rr.attempts + 1,
             d * ((attempt : Int) + 1) :: rr.delays⟩) := by
        conv_lhs => rw [requestGo]
        simp only [hm, if_true, hc]
      rw [hstep, ih (attempt + 1)]
      rw [ReqResult.mk.injEq]
      refine ⟨rfl, rfl, rfl, ?_⟩
      simp only [Nat.add_sub_cancel]
      have htail : (List.range r').map
            ((fun i => d * (((attempt + i : Nat) : Int) + 1)) ∘ Nat.succ) =
          (List.range r').map
            (fun i => d * (((attempt + 1 + i : Nat) : Int) + 1)) := by
        apply List.map_congr_left
        intro i _
        have h1 : attempt + (i + 1) = attempt + 1 + i := by omega
        simp only [Function.comp_apply, Nat.succ_eq_add_one, h1]
      rw [List.range_succ_eq_map, List.map_cons, List.map_map, htail]
      norm_num

/-- When the first `j` attempts fail with retryable outcomes and attempt
`j` receives a 401, the loop returns `None` with the cache cleared after
exactly `j + 1` attempts. -/
theorem requestGo_first_unauthorized (method : String) (d : Int)
    (outcomes : Nat → AttemptOutcome α) (st : TokenState)
    (hm : methodSupported method = true) :
    ∀ j attempt remaining, j < remaining →
      outcomes (attempt + j) = AttemptOutcome.unauthorized →
      (∀ i, i < j → isRetryable (outcomes (attempt + i)) = true) →
      requestGo method d outcomes st attempt remaining =
        ⟨none, ⟨none, 0⟩, j + 1,
          (List.range j).map fun i => d * (((attempt + i : Nat) : Int) + 1)⟩ := by
  intro j
  induction j with
  | zero =>
    intro attempt remaining hlt h401 _
    cases remaining with
    | zero => omega
    | succ r =>
      have hc : classify (outcomes attempt) = AttemptClass.authReject := by
        rw [Nat.add_zero] at h401; rw [h401]; rfl
      cases r with
      | zero => simp [requestGo, hm, hc]
      | succ r' =>
        conv_lhs => rw [requestGo]
        simp [hm, hc]
  | succ k ih =>
    intro attempt remaining hlt h401 hpre
    cases remaining with
    | zero => omega
    | succ r =>
      have hc : classify (outcomes attempt) = AttemptClass.transient := by
        have h0 := hpre 0 (by omega)
        rw [Nat.add_zero] at h0
        exact classify_eq_transient_of_retryable h0
      cases r with
      | zero => omega
      | succ r' =>
        have hstep : requestGo method d outcomes st attempt (r' + 1 + 1) =
            (let rr := requestGo method d outcomes st (attempt + 1) (r' + 1)
             ⟨rr.result, rr.state, rr.attempts + 1,
               d * ((attempt : Int) + 1) :: rr.delays⟩) := by
          conv_lhs => rw [requestGo]
          simp only [hm, if_true, hc]
        have h401' : outcomes (attempt + 1 + k) = AttemptOutcome.unauthorized := by
          have he : attempt + 1 + k = attempt + (k + 1) := by omega
          rw [he]; exact h401
        have hpre' : ∀ i, i < k → isRetryable (outcomes (attempt + 1 + i)) = true := by
          intro i hi
          have he : attempt + 1 + i = attempt + (i + 1) := by omega
          rw [he]; exact hpre (i + 1) (by omega)
        rw [hstep, ih (attempt + 1) (r' + 1) (by omega) h401' hpre']
        rw [ReqResult.mk.injEq]
        refine ⟨rfl, rfl, rfl, ?_⟩
        have htail : (List.range k).map
              ((fun i => d * (((attempt + i : Nat) : Int) + 1)) ∘ Nat.succ) =
            (List.range k).map
              (fun i => d * (((attempt + 1 + i : Nat) : Int) + 1)) := by
          apply List.map_congr_left
          intro i _
          have h1 : attempt + (i + 1) = attempt + 1 + i := by omega
          simp only [Function.comp_apply, Nat.succ_eq_add_one, h1]
        rw [List.range_succ_eq_map, List.map_cons, List.map_map, htail]
        norm_num


/-- A run of the loop in which no attempt receives a 401 leaves the token
cache unchanged. -/
theorem requestGo_state_of_no401 (method : String) (d : Int)
    (outcomes : Nat → AttemptOutcome α) (st : TokenState)
    (h : ∀ i, outcomes i ≠ AttemptOutcome.unauthorized) :
    ∀ remaining attempt,
      (requestGo method d outcomes st attempt remaining).state = st := by
  intro remaining
  induction remaining with
  | zero => intro attempt; simp [requestGo]
  | succ r ih =>
    intro attempt
    by_cases hm : methodSupported method
    · cases hc : classify (outcomes attempt) with
      | success b =>
        cases r with
        | zero => simp [requestGo, hm, hc]
        | succ r' =>
          have hstep : requestGo method d outcomes st attempt (r' + 1 + 1) =
              ⟨some b, st, 1, []⟩ := by
            conv_lhs => rw [requestGo]
            simp only [hm, if_true, hc]
          simp [hstep]
      | authReject => exact absurd (eq_unauthorized_of_classify hc) (h attempt)
      | transient =>
        cases r with
        | zero => simp [requestGo, hm, hc]
        | succ r' =>
          have hstep : requestGo method d outcomes st attempt (r' + 1 + 1) =
              (let rr := requestGo method d outcomes st (attempt + 1) (r' + 1)
               ⟨rr.result, rr.state, rr.attempts + 1,
                 d * ((attempt : Int) + 1) :: rr.delays⟩) := by
            conv_lhs => rw [requestGo]
            simp only [hm, if_true, hc]
          rw [hstep]
          simpa using ih (attempt + 1)
    · cases r with
      | zero => simp [requestGo, hm]
      | succ r' =>
        have hstep : requestGo method d outcomes st attempt (r' + 1 + 1) =
            ⟨none, st, 0, []⟩ := by
          conv_lhs => rw [requestGo]
          simp [hm]
        simp [hstep]

/-! ### Claim C2: 401 invalidates the credential and stops retrying -/

/-- C2: if an attempt of `_request` receives HTTP 401 (all earlier
attempts having failed with retryable outcomes), the cached token and
expiry are cleared, the call returns `None`, and no further attempt is
issued: the total attempt count is exactly the index of the 401 attempt
plus one. -/
theorem request_401_invalidates_and_stops (method : String) (d : Int)
    (outcomes : Nat → AttemptOutcome α) (st : TokenState)
    (max_retries j : Nat)
    (hm : methodSupported method = true)
    (hj : j < max_retries)
    (h401 : outcomes j = AttemptOutcome.unauthorized)
    (hpre : ∀ i, i < j → isRetryable (outcomes i) = true) :
    (requestAttempts method max_retries d outcomes st).result = none ∧
    (requestAttempts method max_retries d outcomes st).state = ⟨none, 0⟩ ∧
    (requestAttempts method max_retries d outcomes st).attempts = j + 1 := by
  have h401' : outcomes (0 + j) = AttemptOutcome.unauthorized := by
    rw [Nat.zero_add]; exact h401
  have hpre' : ∀ i, i < j → isRetryable (outcomes (0 + i)) = true := by
    intro i hi; rw [Nat.zero_add]; exact hpre i hi
  rw [requestAttempts,
    requestGo_first_unauthorized method d outcomes st hm j 0 max_retries hj
      h401' hpre']
  exact ⟨rfl, rfl, rfl⟩

/-- Witness for C2: with attempt 0 timing out and attempt 1 receiving
401 under a budget of 3 attempts, the call fails, clears the cache, and
stops after 2 attempts. -/
def w2outs : Nat → AttemptOutcome Unit :=
  fun n => if n = 1 then .unauthorized else .timeout

theorem request_401_invalidates_witness :
    (requestAttempts "GET" 3 1 w2outs ⟨some "tok", 9999⟩).result = none ∧
    (requestAttempts "GET" 3 1 w2outs ⟨some "tok", 9999⟩).state = ⟨none, 0⟩ ∧
    (requestAttempts "GET" 3 1 w2outs ⟨some "tok", 9999⟩).attempts = 2 :=
  request_401_invalidates_and_stops "GET" 1 w2outs ⟨some "tok", 9999⟩ 3 1
    (by decide) (by decide) (by decide)
    (fun i hi => by
      have hz : i = 0 := by omega
      subst hz; decide)

/-! ### Claim C3: retry bound and linear backoff -/

/-- C3: when every attempt fails with a retryable outcome, `_request`
issues at most `max_retries` attempts, sleeps
`retry_delay * attemptNumber` between consecutive attempts (a
non-decreasing sequence when `retry_delay` is non-negative), and finally
returns `None`. -/
theorem request_retry_bound_and_backoff (method : String) (max_retries : Nat)
    (d : Int) (outcomes : Nat → AttemptOutcome α) (st : TokenState)
    (hm : methodSupported method = true)
    (hall : ∀ i, isRetryable (outcomes i) = true) :
    (requestAttempts method max_retries d outcomes st).result = none ∧
    (requestAttempts method max_retries d outcomes st).attempts ≤ max_retries ∧
    (requestAttempts method max_retries d outcomes st).delays =
      (List.range (max_retries - 1)).map (fun i : Nat => d * ((i : Int) + 1)) ∧
    (0 ≤ d →
      (requestAttempts method max_retries d outcomes st).delays.Pairwise (· ≤ ·)) := by
  rw [requestAttempts, requestGo_all_retryable method d outcomes st hm hall]
  refine ⟨rfl, le_refl _, ?_, ?_⟩
  · apply List.map_congr_left
    intro i _
    rw [Nat.zero_add]
  · intro hd
    rw [List.pairwise_map]
    apply (List.pairwise_lt_range _).imp
    intro a b hab
    have hle : ((0 + a : Nat) : Int) + 1 ≤ ((0 + b : Nat) : Int) + 1 := by
      push_cast; omega
    exact mul_le_mul_of_nonneg_left hle hd

/-- Witness for C3: three timeouts under a budget of 3 attempts with base
delay 1 give a failed result, 3 attempts, and sleeps `[1, 2]`. -/
def w3outs : Nat → AttemptOutcome Unit := fun _ => .timeout

theorem request_retry_bound_witness :
    (requestAttempts "GET" 3 1 w3outs ⟨none, 0⟩).result = none ∧
    (requestAttempts "GET" 3 1 w3outs ⟨none, 0⟩).attempts ≤ 3 ∧
    (requestAttempts "GET" 3 1 w3outs ⟨none, 0⟩).delays =
      (List.range 2).map (fun i : Nat => 1 * ((i : Int) + 1)) ∧
    ((0 : Int) ≤ 1 →
      (requestAttempts "GET" 3 1 w3outs ⟨none, 0⟩).delays.Pairwise (· ≤ ·)) :=
  request_retry_bound_and_backoff "GET" 3 1 w3outs ⟨none, 0⟩ (by decide)
    (fun _ => rfl)

/-- Unfolding of `get_mp_token` when the cache check fails and a
password is configured: the login request is performed and its result
parsed. -/
theorem get_mp_token_refresh_eq (cfg : ApiConfig) (st : TokenState)
    (now : Int) (louts : Nat → AttemptOutcome LoginResp)
    (hcond : (pyTruthyOptStr st.cached_token &&
      decide (now < st.token_expires_at - token_buffer)) = false)
    (hpw : (cfg.mp_password == "") = false) :
    get_mp_token cfg st now louts =
      (let r := requestAttempts "POST_FORM" cfg.max_retries cfg.retry_delay
        louts st
       match r.result with
       | some d =>
         match d.access_token with
         | some tok =>
           ⟨some tok, ⟨some tok, now + d.expires_in.getD 3600⟩, true,
             r.attempts⟩
         | none => ⟨none, r.state, true, r.attempts⟩
       | none => ⟨none, r.state, true, r.attempts⟩) := by
  rw [get_mp_token, hcond, hpw]
  simp

/-! ### Claim C1: token cache hit and proactive refresh -/

/-- C1: every sequence of `_get_mp_token` calls made while the cached
token is truthy and the call time is more than the 300 s buffer before
the stored expiry returns the cached token each time, performs zero login
HTTP attempts, and leaves the cache unchanged; and a call made at or
after expiry minus buffer (with a configured password) performs the login
refresh and, on success, stores the new token with expiry
`now + expires_in` (3600 when the response lacks `expires_in`). -/
theorem token_cache_hit_and_refresh (cfg : ApiConfig) (st : TokenState) :
    (∀ calls : List (Int × (Nat → AttemptOutcome LoginResp)),
        (∀ c ∈ calls, pyTruthyOptStr st.cached_token = true ∧
          c.1 < st.token_expires_at - token_buffer) →
        getTokenSeq cfg st calls = (st, 0, calls.map fun _ => st.cached_token))
    ∧ (∀ now : Int, ∀ louts : Nat → AttemptOutcome LoginResp,
        st.token_expires_at - token_buffer ≤ now →
        cfg.mp_password ≠ "" →
        (get_mp_token cfg st now louts).loginCalled = true ∧
        (∀ d tok,
          (requestAttempts "POST_FORM" cfg.max_retries cfg.retry_delay
            louts st).result = some d →
          d.access_token = some tok →
          (get_mp_token cfg st now louts).state =
            ⟨some tok, now + d.expires_in.getD 3600⟩)) := by
  constructor
  · intro calls
    induction calls with
    | nil => intro _; rfl
    | cons c rest ih =>
      intro h
      obtain ⟨t, louts⟩ := c
      obtain ⟨ht, hlt⟩ := h (t, louts) (List.mem_cons_self _ _)
      have hcache : get_mp_token cfg st t louts =
          ⟨st.cached_token, st, false, 0⟩ := by
        simp [get_mp_token, ht, hlt]
      have hrest := ih (fun c hc => h c (List.mem_cons_of_mem _ hc))
      rw [getTokenSeq]
      simp [hcache, hrest]
  · intro now louts hge hpw
    have hcond : (pyTruthyOptStr st.cached_token &&
        decide (now < st.token_expires_at - token_buffer)) = false := by
      have hnlt : ¬(now < st.token_expires_at - token_buffer) := by omega
      simp [hnlt]
    have hpw' : (cfg.mp_password == "") = false := by
      simpa using hpw
    constructor
    · rw [get_mp_token_refresh_eq cfg st now louts hcond hpw']
      cases hres : (requestAttempts "POST_FORM" cfg.max_retries
          cfg.retry_delay louts st).result with
      | none => simp [hres]
      | some d => cases hat : d.access_token <;> simp [hres, hat]
    · intro d tok hres hat
      rw [get_mp_token_refresh_eq cfg st now louts hcond hpw']
      simp [hres, hat]

/-- Witness for C1: a call at time 600 against a token expiring at 1000
is a pure cache hit; a call at time 5000 refreshes and stores expiry
`5000 + 60` from the response. -/
def w1cfg : ApiConfig := ⟨"user", "pw", 3, 1⟩

def w1st : TokenState := ⟨some "tok", 1000⟩

def w1louts : Nat → AttemptOutcome LoginResp :=
  fun _ => .ok ⟨some "newTok", some 60⟩

theorem token_cache_hit_witness :
    getTokenSeq w1cfg w1st [(600, w1louts)] = (w1st, 0, [some "tok"]) ∧
    (get_mp_token w1cfg w1st 5000 w1louts).loginCalled = true ∧
    (get_mp_token w1cfg w1st 5000 w1louts).state = ⟨some "newTok", 5060⟩ := by
  refine ⟨?_, ?_, ?_⟩
  · exact (token_cache_hit_and_refresh w1cfg w1st).1 [(600, w1louts)]
      (by intro c hc; rw [List.mem_singleton] at hc; subst hc
          exact ⟨by decide, by decide⟩)
  · exact ((token_cache_hit_and_refresh w1cfg w1st).2 5000 w1louts (by decide)
      (by decide)).1
  · exact ((token_cache_hit_and_refresh w1cfg w1st).2 5000 w1louts (by decide)
      (by decide)).2 ⟨some "newTok", some 60⟩ "newTok" (by decide) rfl

/-! ### Claim C4 (corrected): cache after a failed login -/

/-- Counterexample to C4 as stated: with a cached (stale) token present,
a login attempt that fails with HTTP 401 does not leave the cache
entry unchanged — `_request`'s 401 handler clears the cached token and
expiry. -/
def w4st : TokenState := ⟨some "oldtok", 1000⟩

def w4unauth : Nat → AttemptOutcome LoginResp := fun _ => .unauthorized

theorem failed_login_clears_cache_cex :
    (get_mp_token ⟨"user", "pw", 3, 1⟩ w4st 2000 w4unauth).token = none ∧
    (get_mp_token ⟨"user", "pw", 3, 1⟩ w4st 2000 w4unauth).state ≠ w4st := by
  decide

/-- C4 as amended: a failed login leaves the cached token and expiry
unchanged provided no attempt of the login request received HTTP 401;
when an attempt does receive 401, `_request` clears the cached token and
sets the expiry to 0 (and the login still returns failure). -/
theorem failed_login_cache_effect (cfg : ApiConfig) (st : TokenState)
    (now : Int) (louts : Nat → AttemptOutcome LoginResp) :
    ((∀ i, louts i ≠ AttemptOutcome.unauthorized) →
      (get_mp_token cfg st now louts).token = none →
      (get_mp_token cfg st now louts).state = st)
    ∧ (∀ j, j < cfg.max_retries →
        louts j = AttemptOutcome.unauthorized →
        (∀ i, i < j → isRetryable (louts i) = true) →
        cfg.mp_password ≠ "" →
        (pyTruthyOptStr st.cached_token &&
          decide (now < st.token_expires_at - token_buffer)) = false →
        (get_mp_token cfg st now louts).token = none ∧
        (get_mp_token cfg st now louts).state = ⟨none, 0⟩) := by
  constructor
  · intro hno401 hfail
    by_cases hcond : (pyTruthyOptStr st.cached_token &&
        decide (now < st.token_expires_at - token_buffer)) = true
    · exfalso
      obtain ⟨hb, _⟩ := Bool.and_eq_true_iff.mp hcond
      simp only [get_mp_token, hcond, if_true] at hfail
      cases hct : st.cached_token with
      | none => rw [hct] at hb; exact Bool.noConfusion hb
      | some s => rw [hct] at hfail; exact Option.noConfusion hfail
    · rw [Bool.not_eq_true] at hcond
      by_cases hpw : (cfg.mp_password == "") = true
      · simp [get_mp_token, hcond, hpw]
      · rw [Bool.not_eq_true] at hpw
        have hstate : (requestAttempts "POST_FORM" cfg.max_retries
            cfg.retry_delay louts st).state = st :=
          requestGo_state_of_no401 "POST_FORM" cfg.retry_delay louts st
            hno401 cfg.max_retries 0
        rw [get_mp_token_refresh_eq cfg st now louts hcond hpw] at hfail ⊢
        cases hres : (requestAttempts "POST_FORM" cfg.max_retries
            cfg.retry_delay louts st).result with
        | none =>
          simp only [hres]
          exact hstate
        | some d =>
          cases hat : d.access_token with
          | none =>
            simp only [hres, hat]
            exact hstate
          | some tok =>
            simp [hres, hat] at hfail
  · intro j hj h401 hpre hpw hcond
    have hpw' : (cfg.mp_password == "") = false := by simpa using hpw
    have h401' : louts (0 + j) = AttemptOutcome.unauthorized := by
      rw [Nat.zero_add]; exact h401
    have hpre' : ∀ i, i < j → isRetryable (louts (0 + i)) = true := by
      intro i hi; rw [Nat.zero_add]; exact hpre i hi
    have hreq : requestAttempts "POST_FORM" cfg.max_retries cfg.retry_delay
        louts st =
        ⟨none, ⟨none, 0⟩, j + 1,
          (List.range j).map
            fun i => cfg.retry_delay * (((0 + i : Nat) : Int) + 1)⟩ :=
      requestGo_first_unauthorized "POST_FORM" cfg.retry_delay
        louts st rfl j 0 cfg.max_retries hj h401' hpre'
    rw [get_mp_token_refresh_eq cfg st now louts hcond hpw']
    simp [hreq]

/-- Witness for the amended C4: a login failing only with timeouts leaves
the stale cache entry `(some "oldtok", 1000)` in place; a login failing
with 401 returns failure with the cache cleared. -/
def w4timeouts : Nat → AttemptOutcome LoginResp := fun _ => .timeout

theorem failed_login_cache_effect_witness :
    (get_mp_token ⟨"user", "pw", 2, 1⟩ w4st 2000 w4timeouts).state = w4st ∧
    (get_mp_token ⟨"user", "pw", 2, 1⟩ w4st 2000 w4unauth).token = none ∧
    (get_mp_token ⟨"user", "pw", 2, 1⟩ w4st 2000 w4unauth).state = ⟨none, 0⟩ := by
  refine ⟨?_, ?_, ?_⟩
  · exact (failed_login_cache_effect ⟨"user", "pw", 2, 1⟩ w4st 2000
      w4timeouts).1 (fun i => by simp [w4timeouts]) (by decide)
  · exact ((failed_login_cache_effect ⟨"user", "pw", 2, 1⟩ w4st 2000
      w4unauth).2 0 (by decide) rfl (fun i hi => absurd hi (by omega))
      (by decide) (by decide)).1
  · exact ((failed_login_cache_effect ⟨"user", "pw", 2, 1⟩ w4st 2000
      w4unauth).2 0 (by decide) rfl (fun i hi => absurd hi (by omega))
      (by decide) (by decide)).2

/-! ### Claim C5: `list_all_seasons` input validation -/

/-- C5: an identifier that is the empty string, whose string form is the
sentinel `"tv"` or `"movie"`, or that is not parseable as an integer
makes `list_all_seasons` return `None` without any network call. -/
theorem list_all_seasons_rejects_invalid
    (transport : Int → Option (List SeasonInfo)) (t : TmdbId)
    (h : t = TmdbId.ofStr "" ∨ pyStrOfTmdb t = "tv" ∨
      pyStrOfTmdb t = "movie" ∨ pyIntOfTmdb t = none) :
    list_all_seasons transport t = (none, false) := by
  rcases h with h | h | h | h
  · subst h; rfl
  · simp [list_all_seasons, h]
  · simp [list_all_seasons, h]
  · cases t with
    | absent => rfl
    | ofInt n => simp [pyIntOfTmdb] at h
    | ofStr s =>
      rw [list_all_seasons]
      split
      · rfl
      · rw [show pyIntOfTmdb (TmdbId.ofStr s) = none from h]

/-- Witness for C5: the non-numeric identifier `"abc"` is rejected with
no network call, whatever the transport would have answered. -/
theorem list_all_seasons_rejects_witness :
    list_all_seasons (fun _ => none) (TmdbId.ofStr "abc") = (none, false) :=
  list_all_seasons_rejects_invalid (fun _ => none) (TmdbId.ofStr "abc")
    (Or.inr (Or.inr (Or.inr (by decide))))

/-! ### Claim C6: subscribe success-flag contract -/

/-- A subscribe response with no usable success flag: missing body,
non-object body, or an object without the `success` key. -/
def subFailed (r : Option SubBody) : Prop :=
  r = none ∨ r = some SubBody.nonDict ∨ r = some (SubBody.dict none)

/-- C6: `subscribe_movie` and `subscribe_series` return the `success`
flag of the response body, and return `false` whenever the body is
missing, unparseable, or lacks the flag. -/
theorem subscribe_success_flag (transport : SubReqBody → Option SubBody)
    (m : MovieInfo) (season : Int) (b : Bool) :
    (transport (movieSubBody m) = some (SubBody.dict (some b)) →
      subscribe_movie transport m = b) ∧
    (subFailed (transport (movieSubBody m)) →
      subscribe_movie transport m = false) ∧
    (transport (seriesSubBody m season) = some (SubBody.dict (some b)) →
      subscribe_series transport m season = b) ∧
    (subFailed (transport (seriesSubBody m season)) →
      subscribe_series transport m season = false) := by
  refine ⟨?_, ?_, ?_, ?_⟩
  · intro h; simp [subscribe_movie, h]
  · intro h; rcases h with h | h | h <;> simp [subscribe_movie, h]
  · intro h; simp [subscribe_series, h]
  · intro h; rcases h with h | h | h <;> simp [subscribe_series, h]

/-- Witness for C6: a transport that answers `{success: true}` only to a
body carrying `season = 2` makes `subscribe_series` succeed and
`subscribe_movie` (whose body has no season) fail. -/
def w6transport : SubReqBody → Option SubBody :=
  fun r => if r.season = some 2 then some (SubBody.dict (some true)) else none

def w6movie : MovieInfo :=
  ⟨some "Title", some "2020", some "电视剧", TmdbId.ofInt 5⟩

theorem subscribe_success_flag_witness :
    subscribe_series w6transport w6movie 2 = true ∧
    subscribe_movie w6transport w6movie = false := by
  refine ⟨?_, ?_⟩
  · exact (subscribe_success_flag w6transport w6movie 2 true).2.2.1 (by decide)
  · exact (subscribe_success_flag w6transport w6movie 2 true).2.1
      (Or.inl (by decide))

/-! ### Claim C7: download progress distinguishes failure from empty -/

/-- C7: `get_download_progress` returns `None` exactly when the transport
failed, and returns the task list (possibly empty) on every success, so
failure and zero active tasks are distinguishable. -/
theorem download_progress_distinguishes
    (transport : Option (List DownloadTask)) (l : List DownloadTask) :
    (get_download_progress transport = none ↔ transport = none) ∧
    get_download_progress (some l) = some l := by
  constructor
  · cases transport with
    | none => simp [get_download_progress]
    | some l' => cases l' <;> simp [get_download_progress]
  · cases l <;> simp [get_download_progress]

/-! ### Claim C8: a reply of 0 always cancels -/

/-- C8: in either dialogue state (awaiting a movie index or awaiting a
season number), a reply of exactly `0` stops the session and issues no
subscribe call and no state write. -/
theorem reply_zero_always_cancels (oracle : ApiOracle)
    (movies : List MovieInfo) (stored : StoredState) :
    selection_waiter_step oracle movies stored "0" =
      ⟨CtrlAction.stop, [], none⟩ := by
  have h0 : pyIntOfString (pyStrip "0") = some 0 := by decide
  rw [selection_waiter_step]
  by_cases hw : stored.waiting_for = some "season"
  · simp only [if_pos hw]
    rw [process_season_selection]
    simp [h0]
  · simp only [if_neg hw]
    rw [process_movie_index_selection]
    simp [h0]

/-! ### Claim C9: non-terminal invalid input keeps the session -/

/-- C9: a non-numeric reply (either state), an out-of-range movie index,
or a season number not present in the stored list leaves the registry
unwritten, the session alive, and refreshes the wait to the full
60-second turn timeout. -/
theorem invalid_input_keeps_session (oracle : ApiOracle)
    (movies : List MovieInfo) (stored : StoredState) (message : String) :
    (pyIntOfString (pyStrip message) = none →
      selection_waiter_step oracle movies stored message =
        ⟨CtrlAction.keep 60 true, [], none⟩) ∧
    (∀ n : Int, stored.waiting_for ≠ some "season" →
      pyIntOfString (pyStrip message) = some n → n ≠ 0 →
      ¬(0 ≤ n - 1 ∧ n - 1 < (movies.length : Int)) →
      selection_waiter_step oracle movies stored message =
        ⟨CtrlAction.keep 60 true, [], none⟩) ∧
    (∀ n : Int, ∀ m : MovieInfo, stored.waiting_for = some "season" →
      pyIntOfString (pyStrip message) = some n → n ≠ 0 →
      stored.selected_movie = some m → stored.seasons ≠ [] →
      (∀ s ∈ stored.seasons, s.season_number ≠ some n) →
      selection_waiter_step oracle movies stored message =
        ⟨CtrlAction.keep 60 true, [], none⟩) := by
  refine ⟨?_, ?_, ?_⟩
  · intro hparse
    rw [selection_waiter_step]
    by_cases hw : stored.waiting_for = some "season"
    · simp only [if_pos hw]
      rw [process_season_selection]
      simp [hparse]
    · simp only [if_neg hw]
      rw [process_movie_index_selection]
      simp [hparse]
  · intro n hw hparse hn hrange
    rw [selection_waiter_step]
    simp only [if_neg hw]
    rw [process_movie_index_selection]
    have h1 : ¬(n - 1 = -1) := by omega
    simp only [hparse, if_neg h1, if_neg hrange]
  · intro n m hw hparse hn hmov hseasons hnot
    have hany : stored.seasons.any
        (fun s => s.season_number == some n) = false := by
      rw [List.any_eq_false]
      intro s hs
      simpa using hnot s hs
    have hep : stored.seasons.isEmpty = false := by
      cases h' : stored.seasons with
      | nil => exact absurd h' hseasons
      | cons a l => rfl
    rw [selection_waiter_step]
    simp only [if_pos hw]
    rw [process_season_selection]
    simp [hparse, hmov, hep, hany, hn]

/-- Witness for C9: a non-numeric reply, the out-of-range index 5 against
an empty result list, and season 3 against a stored list holding only
season 1, each keep the session with a refreshed 60 s wait. -/
def w9oracle : ApiOracle := ⟨fun _ => none, fun _ => false, fun _ _ => false⟩

def w9movie : MovieInfo := ⟨some "Title", none, some "电视剧", TmdbId.ofInt 7⟩

def w9stored : StoredState := ⟨some w9movie, [⟨some 1, none⟩], some "season"⟩

theorem invalid_input_keeps_witness :
    selection_waiter_step w9oracle [] ⟨none, [], none⟩ "abc" =
      ⟨CtrlAction.keep 60 true, [], none⟩ ∧
    selection_waiter_step w9oracle [] ⟨none, [], none⟩ "5" =
      ⟨CtrlAction.keep 60 true, [], none⟩ ∧
    selection_waiter_step w9oracle [] w9stored "3" =
      ⟨CtrlAction.keep 60 true, [], none⟩ := by
  refine ⟨?_, ?_, ?_⟩
  · exact (invalid_input_keeps_session w9oracle [] ⟨none, [], none⟩ "abc").1
      (by decide)
  · exact (invalid_input_keeps_session w9oracle [] ⟨none, [], none⟩ "5").2.1
      5 (by decide) (by decide) (by decide) (by decide)
  · exact (invalid_input_keeps_session w9oracle [] w9stored "3").2.2
      3 w9movie (by decide) (by decide) (by decide) (by decide) (by decide)
      (by decide)

/-! ### Claim C10: `_get_user_state` returns an isolated copy -/

/-- A successful association-list lookup comes from a member pair. -/
theorem mem_of_lookup_eq_some {l : List (String × Nat)} {k : String}
    {v : Nat} (h : l.lookup k = some v) : (k, v) ∈ l := by
  induction l with
  | nil => simp [List.lookup] at h
  | cons p rest ih =>
    obtain ⟨a, b⟩ := p
    rw [List.lookup] at h
    by_cases hk : (k == a) = true
    · rw [hk] at h
      have hkv : b = v := by
        simpa using h
      have hka : k = a := eq_of_beq hk
      subst hkv; subst hka
      exact List.mem_cons_self _ _
    · rw [Bool.not_eq_true] at hk
      rw [hk] at h
      exact List.mem_cons_of_mem _ (ih h)

/-- C10: `_get_user_state` hands the caller a fresh copy of the user's
stored dict, so mutating the returned dict afterwards changes no user's
registered state (neither the queried user's nor any other user's). -/
theorem get_user_state_copy_isolated (m : Mem) (uid : String) (hwf : m.wf)
    (f : StoredState → StoredState) (uid' : String) :
    storedOf (mutateCell (get_user_state m uid).1 (get_user_state m uid).2 f)
      uid' = storedOf m uid' := by
  cases hl : m.reg.lookup uid' with
  | none => simp [storedOf, mutateCell, get_user_state, hl]
  | some a =>
    have ha : a < m.hsize := hwf (uid', a) (mem_of_lookup_eq_some hl)
    have hne : a ≠ m.hsize := by omega
    simp [storedOf, mutateCell, get_user_state, hl, hne]

/-- Witness for C10: one registered user at heap cell 0; overwriting the
copy returned by `_get_user_state` leaves the registered state intact. -/
def w10mem : Mem := ⟨fun _ => emptyStored, 1, [("u", 0)]⟩

def w10f : StoredState → StoredState := fun _ => ⟨none, [], some "season"⟩

theorem get_user_state_copy_witness :
    storedOf (mutateCell (get_user_state w10mem "u").1
      (get_user_state w10mem "u").2 w10f) "u" = storedOf w10mem "u" :=
  get_user_state_copy_isolated w10mem "u"
    (by intro p hp
        rw [show w10mem.reg = [("u", 0)] from rfl, List.mem_singleton] at hp
        subst hp
        decide)
    w10f "u"
